import Mathlib

/-!
Verification of the checklist reconciliation engine of the phmarcel-rpg
tax-document intake service.

The definitions below are a shallow embedding of the Python source:

* `app/models/enums.py`       → `ClientComplexity`, `IntakeStatus`, `DocKind`, `ChecklistStatus`
* `app/models/client.py`      → `expected_receipt_count`
* `app/models/intake.py`      → `Intake`, `Intake.is_complete`
* `app/models/checklist_item.py` → `ChecklistItem`, `progress_percentage`
* `app/models/document.py`    → `Document`
* `app/services/checklist_service.py` → `update_checklist_for_document`,
  `check_and_update_intake_status`
* `app/api/intakes.py`        → `create_intake_checklist`, `upload_document`
* `app/api/documents.py`      → `classify_document`, `extract_document`
* `app/api/checklist.py`      → `total_expected`, `total_received`, `overall_progress`

The database session is modelled as an explicit `DB` state holding the three
entity tables; SQLAlchemy queries become `List.find?` / `List.filter` over
those tables, and ORM mutation of a row fetched by primary key becomes a
`List.map` replacing the row with the matching `id`.  JSON field maps are
association lists with nullable values; SQL `IS NOT NULL` is `Option.isSome`
and Python truthiness of the optional map is `jsonTruthy`.
-/

/-- Document classification kinds (`DocKind` in `app/models/enums.py`). -/
inductive DocKind
  | t4
  | receipt
  | id
  | unknown
deriving DecidableEq

/-- Checklist item status (`ChecklistStatus` in `app/models/enums.py`). -/
inductive ChecklistStatus
  | missing
  | received
deriving DecidableEq

/-- Intake processing status (`IntakeStatus` in `app/models/enums.py`). -/
inductive IntakeStatus
  | open_
  | done
deriving DecidableEq

/-- Client complexity tiers (`ClientComplexity` in `app/models/enums.py`):
`simple` is the low tier, `average` the medium tier, `complex` the high tier. -/
inductive ClientComplexity
  | simple
  | average
  | complex
deriving DecidableEq

/-- A JSON object of extracted fields: keys mapped to nullable string values
(`extracted_data` JSON column of `app/models/document.py`). -/
abbrev FieldMap := List (String × Option String)

/-- Python truthiness of the nullable JSON map: `None` and the empty map are
falsy (`not document.extracted_data` in `checklist_service.py` line 17). -/
def jsonTruthy : Option FieldMap → Bool
  | none => false
  | some m => !m.isEmpty

/-- A row of the `documents` table (`app/models/document.py`); the fields the
core logic never reads (filename, mime type, size, stored path, timestamps)
are omitted.  Raw bytes and hashes are modelled as `List Nat`. -/
structure Document where
  id : Nat
  intake_id : Nat
  sha256 : List Nat
  doc_kind : DocKind
  extracted_data : Option FieldMap
deriving DecidableEq

/-- A row of the `checklist_items` table (`app/models/checklist_item.py`). -/
structure ChecklistItem where
  id : Nat
  intake_id : Nat
  doc_kind : DocKind
  status : ChecklistStatus
  quantity_expected : Nat
  quantity_received : Nat
deriving DecidableEq

/-- A row of the `intakes` table (`app/models/intake.py`). -/
structure Intake where
  id : Nat
  client_id : Nat
  fiscal_year : Nat
  status : IntakeStatus
deriving DecidableEq

/-- The database state: the three tables the reconciliation engine touches. -/
structure DB where
  intakes : List Intake
  documents : List Document
  checklist_items : List ChecklistItem
deriving DecidableEq

/-- The `select(ChecklistItem).where(intake_id == .., doc_kind == ..)` query of
`checklist_service.py` lines 21-27 (`scalar_one_or_none`). -/
def findChecklistItem (db : DB) (intake_id : Nat) (kind : DocKind) : Option ChecklistItem :=
  db.checklist_items.find? (fun it => decide (it.intake_id = intake_id ∧ it.doc_kind = kind))

/-- The recount query of `checklist_service.py` lines 31-38: the number of
documents of the intake and kind whose `extracted_data` is not SQL NULL. -/
def extractedCount (db : DB) (intake_id : Nat) (kind : DocKind) : Nat :=
  (db.documents.filter (fun d =>
    decide (d.intake_id = intake_id ∧ d.doc_kind = kind) && d.extracted_data.isSome)).length

/-- The number of documents of the intake and kind whose extracted map is
non-null AND non-empty — the wording of the specification (§4.3 step 3),
for comparison with the source's recount `extractedCount`. -/
def countNonEmptyExtracted (db : DB) (intake_id : Nat) (kind : DocKind) : Nat :=
  (db.documents.filter (fun d =>
    decide (d.intake_id = intake_id ∧ d.doc_kind = kind) && jsonTruthy d.extracted_data)).length

/-- `check_and_update_intake_status` of `checklist_service.py` lines 49-74:
fetch the intake; count its checklist items whose status is `missing`; if none
are missing, set the intake status to `done` (there is no branch writing
`open`). -/
def check_and_update_intake_status (db : DB) (intake_id : Nat) : DB :=
  match db.intakes.find? (fun i => decide (i.id = intake_id)) with
  | none => db
  | some _ =>
    let missing_items : Nat :=
      (db.checklist_items.filter (fun it =>
        decide (it.intake_id = intake_id ∧ it.status = ChecklistStatus.missing))).length
    if missing_items = 0 then
      { db with intakes := db.intakes.map (fun i =>
          if i.id = intake_id then { i with status := IntakeStatus.done } else i) }
    else db

/-- `update_checklist_for_document` of `checklist_service.py` lines 10-46:
no-op when the document's kind is unknown or its extracted map is falsy;
otherwise locate the checklist item for (intake, kind); if found, recount the
extracted documents of that kind, store the count, set the status to
`received` when the count reaches the expected quantity (no else branch), and
cascade into the intake status re-evaluation. -/
def update_checklist_for_document (db : DB) (document : Document) : DB :=
  if document.doc_kind = DocKind.unknown ∨ jsonTruthy document.extracted_data = false then db
  else
    match findChecklistItem db document.intake_id document.doc_kind with
    | none => db
    | some checklist_item =>
      let extracted_count := extractedCount db document.intake_id document.doc_kind
      let item2 : ChecklistItem :=
        { checklist_item with
          quantity_received := extracted_count
          status := if extracted_count ≥ checklist_item.quantity_expected
                    then ChecklistStatus.received else checklist_item.status }
      let db2 : DB := { db with checklist_items := db.checklist_items.map (fun it =>
        if it.id = checklist_item.id then item2 else it) }
      check_and_update_intake_status db2 document.intake_id

/-- The durable state right after the first transaction commit inside
`update_checklist_for_document` (the `db.commit()` on line 43, which persists
the item's recount and status) and before `check_and_update_intake_status`,
which commits separately on line 74.  On the no-op paths nothing was written,
so the committed state is the initial one. -/
def update_checklist_commit1 (db : DB) (document : Document) : DB :=
  if document.doc_kind = DocKind.unknown ∨ jsonTruthy document.extracted_data = false then db
  else
    match findChecklistItem db document.intake_id document.doc_kind with
    | none => db
    | some checklist_item =>
      let extracted_count := extractedCount db document.intake_id document.doc_kind
      let item2 : ChecklistItem :=
        { checklist_item with
          quantity_received := extracted_count
          status := if extracted_count ≥ checklist_item.quantity_expected
                    then ChecklistStatus.received else checklist_item.status }
      { db with checklist_items := db.checklist_items.map (fun it =>
        if it.id = checklist_item.id then item2 else it) }

/-- `Intake.is_complete` of `app/models/intake.py` lines 35-40: false when the
intake has no checklist items, otherwise true iff every item is `received`. -/
def Intake.is_complete (db : DB) (intake : Intake) : Bool :=
  let items := db.checklist_items.filter (fun it => decide (it.intake_id = intake.id))
  if items.isEmpty then false
  else items.all (fun it => decide (it.status = ChecklistStatus.received))

/-- `Client.expected_receipt_count` of `app/models/client.py` lines 46-55. -/
def expected_receipt_count : ClientComplexity → Nat
  | ClientComplexity.simple => 0
  | ClientComplexity.average => 2
  | ClientComplexity.complex => 5

/-- The checklist items created by `create_intake` (`app/api/intakes.py` lines
83-115): a T4 item and an ID item with expected quantity 1, plus a receipt
item with the client's expected receipt count when that count is positive.
Row ids are supplied by the caller (UUIDs in the source). -/
def create_intake_checklist (intake_id idT4 idID idReceipt : Nat)
    (complexity : ClientComplexity) : List ChecklistItem :=
  [ { id := idT4, intake_id := intake_id, doc_kind := DocKind.t4,
      status := ChecklistStatus.missing, quantity_expected := 1, quantity_received := 0 },
    { id := idID, intake_id := intake_id, doc_kind := DocKind.id,
      status := ChecklistStatus.missing, quantity_expected := 1, quantity_received := 0 } ]
  ++ (if expected_receipt_count complexity > 0 then
      [ { id := idReceipt, intake_id := intake_id, doc_kind := DocKind.receipt,
          status := ChecklistStatus.missing,
          quantity_expected := expected_receipt_count complexity, quantity_received := 0 } ]
      else [])

/-- Sum of `quantity_expected` over checklist items (`app/api/checklist.py`
line 62). -/
def total_expected (items : List ChecklistItem) : Nat :=
  (items.map (fun it => it.quantity_expected)).sum

/-- Sum of `quantity_received` over checklist items (`app/api/checklist.py`
line 63). -/
def total_received (items : List ChecklistItem) : Nat :=
  (items.map (fun it => it.quantity_received)).sum

/-- `overall_progress` of `app/api/checklist.py` line 64, with exact rational
arithmetic in place of Python floats. -/
def overall_progress (items : List ChecklistItem) : ℚ :=
  if total_expected items > 0
  then ((total_received items : ℚ) / (total_expected items : ℚ)) * 100
  else 0

/-- `ChecklistItem.progress_percentage` of `app/models/checklist_item.py`
lines 51-56, with exact rational arithmetic in place of Python floats. -/
def progress_percentage (item : ChecklistItem) : ℚ :=
  if item.quantity_expected = 0 then 0
  else ((item.quantity_received : ℚ) / (item.quantity_expected : ℚ)) * 100

/-- Outcome of an upload request (`app/api/intakes.py` lines 127-213):
a created document, a 409 Conflict, or a 404 for a missing intake. -/
inductive UploadOutcome
  | created (doc : Document)
  | conflict
  | notFound
deriving DecidableEq

/-- `upload_document` of `app/api/intakes.py` lines 127-213: 404 when the
intake does not exist; compute the SHA-256 fingerprint of the raw bytes (the
hash function is passed in abstractly); 409 Conflict when a document with the
same fingerprint already exists in the same intake; otherwise insert a new
document with unknown kind and no extracted data. -/
def upload_document (hash : List Nat → List Nat) (db : DB) (intake_id : Nat)
    (content : List Nat) (newId : Nat) : UploadOutcome × DB :=
  match db.intakes.find? (fun i => decide (i.id = intake_id)) with
  | none => (UploadOutcome.notFound, db)
  | some _ =>
    let sha256_hash := hash content
    match db.documents.find? (fun d =>
        decide (d.intake_id = intake_id ∧ d.sha256 = sha256_hash)) with
    | some _ => (UploadOutcome.conflict, db)
    | none =>
      let new_document : Document :=
        { id := newId, intake_id := intake_id, sha256 := sha256_hash,
          doc_kind := DocKind.unknown, extracted_data := none }
      (UploadOutcome.created new_document,
        { db with documents := db.documents ++ [new_document] })

/-- `classify_document` of `app/api/documents.py` lines 18-61: look the
document up by id and store the kind returned by the external model. -/
def classify_document (db : DB) (document_id : Nat) (kind : DocKind) : DB :=
  match db.documents.find? (fun d => decide (d.id = document_id)) with
  | none => db
  | some _ =>
    { db with documents := db.documents.map (fun d =>
        if d.id = document_id then { d with doc_kind := kind } else d) }

/-- `extract_document` of `app/api/documents.py` lines 64-130: reject unknown
kinds; store the field map returned by the external model on the document and
trigger reconciliation with the refreshed document. -/
def extract_document (db : DB) (document_id : Nat) (data : FieldMap) : DB :=
  match db.documents.find? (fun d => decide (d.id = document_id)) with
  | none => db
  | some document =>
    if document.doc_kind = DocKind.unknown then db
    else
      let doc2 : Document := { document with extracted_data := some data }
      let db2 : DB := { db with documents := db.documents.map (fun d =>
        if d.id = document_id then doc2 else d) }
      update_checklist_for_document db2 doc2

/-- One core operation on the store, as invoked by the API layer; external
model results (kind, field map) are the operation's parameters. -/
inductive Op
  | upload (intake_id : Nat) (content : List Nat) (newId : Nat)
  | classifyDoc (document_id : Nat) (kind : DocKind)
  | extractDoc (document_id : Nat) (data : FieldMap)
  | reconcile (document_id : Nat)
  | reeval (intake_id : Nat)

/-- Interpretation of one core operation as a state transformer. -/
def applyOp (hash : List Nat → List Nat) (db : DB) : Op → DB
  | Op.upload intake_id content newId => (upload_document hash db intake_id content newId).2
  | Op.classifyDoc document_id kind => classify_document db document_id kind
  | Op.extractDoc document_id data => extract_document db document_id data
  | Op.reconcile document_id =>
    match db.documents.find? (fun d => decide (d.id = document_id)) with
    | none => db
    | some document => update_checklist_for_document db document
  | Op.reeval intake_id => check_and_update_intake_status db intake_id

/-- Interpretation of a sequence of core operations. -/
def applyOps (hash : List Nat → List Nat) (db : DB) : List Op → DB
  | [] => db
  | op :: ops => applyOps hash (applyOp hash db op) ops

/-- The intake with the given id (if stored) has status `done`. -/
def intakeDone (db : DB) (intake_id : Nat) : Bool :=
  db.intakes.all (fun i => decide (i.id = intake_id → i.status = IntakeStatus.done))

/-- The updated checklist item built by `update_checklist_for_document` lines
40-42: store the recount and set the status to `received` when the count
reaches the expected quantity; otherwise the status is left as it was. -/
def upd (db : DB) (d : Document) (item : ChecklistItem) : ChecklistItem :=
  { item with
    quantity_received := extractedCount db d.intake_id d.doc_kind
    status := if extractedCount db d.intake_id d.doc_kind ≥ item.quantity_expected
              then ChecklistStatus.received else item.status }

theorem upd_id (db : DB) (d : Document) (item : ChecklistItem) :
    (upd db d item).id = item.id := rfl

theorem upd_intake_id (db : DB) (d : Document) (item : ChecklistItem) :
    (upd db d item).intake_id = item.intake_id := rfl

theorem upd_doc_kind (db : DB) (d : Document) (item : ChecklistItem) :
    (upd db d item).doc_kind = item.doc_kind := rfl

theorem upd_quantity_received (db : DB) (d : Document) (item : ChecklistItem) :
    (upd db d item).quantity_received = extractedCount db d.intake_id d.doc_kind := rfl

theorem upd_status (db : DB) (d : Document) (item : ChecklistItem) :
    (upd db d item).status =
      (if extractedCount db d.intake_id d.doc_kind ≥ item.quantity_expected
       then ChecklistStatus.received else item.status) := rfl

/-- Zeta-reduced unfolding of `check_and_update_intake_status`. -/
theorem check_and_update_eq (db : DB) (intake_id : Nat) :
    check_and_update_intake_status db intake_id =
      (match db.intakes.find? (fun i => decide (i.id = intake_id)) with
       | none => db
       | some _ =>
         if (db.checklist_items.filter (fun it =>
             decide (it.intake_id = intake_id ∧ it.status = ChecklistStatus.missing))).length = 0
         then { db with intakes := db.intakes.map (fun i =>
             if i.id = intake_id then { i with status := IntakeStatus.done } else i) }
         else db) := rfl

/-- Zeta-reduced unfolding of `update_checklist_for_document` through `upd`. -/
theorem update_checklist_eq (db : DB) (d : Document) :
    update_checklist_for_document db d =
      (if d.doc_kind = DocKind.unknown ∨ jsonTruthy d.extracted_data = false then db
       else
        match findChecklistItem db d.intake_id d.doc_kind with
        | none => db
        | some item =>
          check_and_update_intake_status
            { db with checklist_items := db.checklist_items.map (fun it =>
                if it.id = item.id then upd db d item else it) }
            d.intake_id) := rfl

/-- Zeta-reduced unfolding of `update_checklist_commit1` through `upd`. -/
theorem update_checklist_commit1_eq (db : DB) (d : Document) :
    update_checklist_commit1 db d =
      (if d.doc_kind = DocKind.unknown ∨ jsonTruthy d.extracted_data = false then db
       else
        match findChecklistItem db d.intake_id d.doc_kind with
        | none => db
        | some item =>
          { db with checklist_items := db.checklist_items.map (fun it =>
              if it.id = item.id then upd db d item else it) }) := rfl

/-- `check_and_update_intake_status` never touches the checklist items. -/
theorem check_and_update_checklist_items (db : DB) (intake_id : Nat) :
    (check_and_update_intake_status db intake_id).checklist_items = db.checklist_items := by
  rw [check_and_update_eq]
  split
  · rfl
  · split <;> rfl

/-- `check_and_update_intake_status` never touches the documents. -/
theorem check_and_update_documents (db : DB) (intake_id : Nat) :
    (check_and_update_intake_status db intake_id).documents = db.documents := by
  rw [check_and_update_eq]
  split
  · rfl
  · split <;> rfl

/-- Reconciliation never touches the documents table. -/
theorem update_checklist_documents (db : DB) (d : Document) :
    (update_checklist_for_document db d).documents = db.documents := by
  rw [update_checklist_eq]
  split
  · rfl
  · split
    · rfl
    · rw [check_and_update_documents]

/-- The first reconciliation commit never touches the intakes table. -/
theorem update_checklist_commit1_intakes (db : DB) (d : Document) :
    (update_checklist_commit1 db d).intakes = db.intakes := by
  rw [update_checklist_commit1_eq]
  split
  · rfl
  · split <;> rfl

/-- Replacing, in a list, every element that satisfies `c` by a fixed element
`r` that satisfies the find-predicate `p` turns the first `p`-hit into `r`,
provided the old first `p`-hit satisfied `c`. -/
theorem find?_map_const_replace {α : Type} (p : α → Bool) (c : α → Prop) [DecidablePred c]
    (r : α) :
    ∀ (l : List α) (a : α), l.find? p = some a → c a → p r = true →
      (l.map (fun x => if c x then r else x)).find? p = some r := by
  intro l
  induction l with
  | nil => intro a h _ _; simp at h
  | cons x xs ih =>
    intro a h hca hpr
    by_cases hpx : p x
    · rw [List.find?_cons_of_pos _ hpx] at h
      injection h with h
      subst h
      simp only [List.map_cons, if_pos hca]
      exact List.find?_cons_of_pos _ hpr
    · rw [List.find?_cons_of_neg _ hpx] at h
      simp only [List.map_cons]
      by_cases hcx : c x
      · rw [if_pos hcx]
        exact List.find?_cons_of_pos _ hpr
      · rw [if_neg hcx, List.find?_cons_of_neg _ hpx]
        exact ih a h hca hpr

/-- Updating, in a list, every element that satisfies `c` by a `c`-preserving
function `f` turns the first `c`-hit `a` into `f a`. -/
theorem find?_map_update {α : Type} (c : α → Prop) [DecidablePred c] (f : α → α)
    (hf : ∀ x, c (f x) ↔ c x) :
    ∀ (l : List α) (a : α), l.find? (fun x => decide (c x)) = some a →
      (l.map (fun x => if c x then f x else x)).find? (fun x => decide (c x)) = some (f a) := by
  intro l
  induction l with
  | nil => intro a h; simp at h
  | cons x xs ih =>
    intro a h
    by_cases hcx : c x
    · rw [List.find?_cons_of_pos _ (by simpa using hcx)] at h
      injection h with h
      subst h
      simp only [List.map_cons, if_pos hcx]
      exact List.find?_cons_of_pos _ (by simpa using (hf x).mpr hcx)
    · rw [List.find?_cons_of_neg _ (by simpa using hcx)] at h
      simp only [List.map_cons, if_neg hcx]
      rw [List.find?_cons_of_neg _ (by simpa using hcx)]
      exact ih a h

/-- Constant replacement of the `c`-hits is idempotent when `r` itself
satisfies `c`. -/
theorem map_const_replace_idem {α : Type} (c : α → Prop) [DecidablePred c] (r : α)
    (hr : c r) (l : List α) :
    (l.map (fun x => if c x then r else x)).map (fun x => if c x then r else x)
      = l.map (fun x => if c x then r else x) := by
  rw [List.map_map]
  congr 1
  funext x
  by_cases hcx : c x
  · simp [hcx, hr]
  · simp [hcx]

/-- Updating the `c`-hits by a `c`-preserving, idempotent `f` is idempotent as
a map over the list. -/
theorem map_update_idem {α : Type} (c : α → Prop) [DecidablePred c] (f : α → α)
    (hcf : ∀ x, c (f x) ↔ c x) (hff : ∀ x, f (f x) = f x) (l : List α) :
    (l.map (fun x => if c x then f x else x)).map (fun x => if c x then f x else x)
      = l.map (fun x => if c x then f x else x) := by
  rw [List.map_map]
  congr 1
  funext x
  by_cases hcx : c x
  · simp [hcx, (hcf x).mpr hcx, hff]
  · simp [hcx]

/-- A filter by a stronger predicate of a list whose filter by the weaker
predicate is empty is empty. -/
theorem filter_eq_nil_of_imp {α : Type} (p q : α → Bool) (l : List α)
    (h : l.filter p = []) (himp : ∀ x, q x = true → p x = true) : l.filter q = [] := by
  induction l with
  | nil => rfl
  | cons x xs ih =>
    rw [List.filter_cons] at h ⊢
    by_cases hpx : p x = true
    · rw [if_pos hpx] at h
      cases h
    · rw [if_neg hpx] at h
      have hqx : ¬q x = true := fun hq => hpx (himp x hq)
      rw [if_neg hqx]
      exact ih h

/-- C4 counterexample: for the high/complex tier, the sum of expected
quantities over the checklist items created at intake creation is 7
(1 T4 + 1 ID + 5 receipts), not 8 as the claim states.  (The unused display
property `Client.expected_document_count` returns 8 for the complex tier,
contradicting the 1+1+5 requirement set of `create_intake`.) -/
theorem C4_counterexample :
    total_expected (create_intake_checklist 0 1 2 3 ClientComplexity.complex) = 7 ∧ (7 : Nat) ≠ 8 := by
  exact ⟨rfl, by decide⟩

/-- C4 amended: for each complexity tier, the sum of expected quantities over
the checklist items created at intake creation equals 2 for the low/simple
tier, 4 for the medium/average tier, and 7 for the high/complex tier. -/
theorem C4_tier_expected_totals (intake_id idT4 idID idReceipt : Nat) (c : ClientComplexity) :
    total_expected (create_intake_checklist intake_id idT4 idID idReceipt c) =
      (match c with
       | ClientComplexity.simple => 2
       | ClientComplexity.average => 4
       | ClientComplexity.complex => 7) := by
  cases c <;> simp [total_expected, create_intake_checklist, expected_receipt_count]

/-- C6: If the triggering document's kind is unknown, or its extracted map is
null or empty, or no checklist item exists for (intake, kind), then
reconciliation is a no-op: the whole database state is unchanged. -/
theorem C6_reconciliation_noop (db : DB) (d : Document)
    (h : d.doc_kind = DocKind.unknown ∨ jsonTruthy d.extracted_data = false ∨
         findChecklistItem db d.intake_id d.doc_kind = none) :
    update_checklist_for_document db d = db := by
  unfold update_checklist_for_document
  rcases h with h | h | h
  · rw [if_pos (Or.inl h)]
  · rw [if_pos (Or.inr h)]
  · split
    · rfl
    · rw [h]

/-- Witness for C6: a concrete no-op reconciliation (unknown kind). -/
theorem C6_reconciliation_noop_witness :
    update_checklist_for_document
      { intakes := [{ id := 0, client_id := 0, fiscal_year := 2025, status := IntakeStatus.open_ }],
        documents := [{ id := 1, intake_id := 0, sha256 := [1], doc_kind := DocKind.unknown,
                        extracted_data := some [("a", some "b")] }],
        checklist_items := [] }
      { id := 1, intake_id := 0, sha256 := [1], doc_kind := DocKind.unknown,
        extracted_data := some [("a", some "b")] } =
      { intakes := [{ id := 0, client_id := 0, fiscal_year := 2025, status := IntakeStatus.open_ }],
        documents := [{ id := 1, intake_id := 0, sha256 := [1], doc_kind := DocKind.unknown,
                        extracted_data := some [("a", some "b")] }],
        checklist_items := [] } :=
  C6_reconciliation_noop _ _ (Or.inl rfl)

/-- Locating the checklist item after a non-no-op reconciliation: the item for
(intake, kind) in the result state is the old item with the recount stored and
the status updated by the `received`-only rule. -/
theorem update_checklist_found (db : DB) (d : Document) (item : ChecklistItem)
    (hguard : ¬(d.doc_kind = DocKind.unknown ∨ jsonTruthy d.extracted_data = false))
    (hfind : findChecklistItem db d.intake_id d.doc_kind = some item) :
    findChecklistItem (update_checklist_for_document db d) d.intake_id d.doc_kind =
      some (upd db d item) := by
  have hfind' : db.checklist_items.find? (fun it =>
      decide (it.intake_id = d.intake_id ∧ it.doc_kind = d.doc_kind)) = some item := hfind
  have hp := List.find?_some hfind'
  rw [decide_eq_true_eq] at hp
  have hp2 : (fun it : ChecklistItem =>
      decide (it.intake_id = d.intake_id ∧ it.doc_kind = d.doc_kind)) (upd db d item)
        = true := by
    simp only [decide_eq_true_eq, upd_intake_id, upd_doc_kind]
    exact hp
  rw [update_checklist_eq, if_neg hguard, hfind]
  unfold findChecklistItem
  rw [check_and_update_checklist_items]
  exact find?_map_const_replace _ (fun it => it.id = item.id) (upd db d item)
    db.checklist_items item hfind' rfl hp2

/-- A passing guard, packaged for reuse. -/
theorem guard_passes (d : Document) (hk : ¬d.doc_kind = DocKind.unknown)
    (hx : jsonTruthy d.extracted_data = true) :
    ¬(d.doc_kind = DocKind.unknown ∨ jsonTruthy d.extracted_data = false) := by
  rintro (h | h)
  · exact hk h
  · rw [hx] at h
    cases h

/-- Shared concrete fixture: an open intake with id 0. -/
def intake0 : Intake :=
  { id := 0, client_id := 0, fiscal_year := 2025, status := IntakeStatus.open_ }

/-- Fixture for C1: intake 0 holds a T4 checklist item and two T4 documents,
one with a non-empty extracted map and one whose extracted map is present but
empty. -/
def cexDB1 : DB :=
  { intakes := [intake0],
    documents :=
      [{ id := 1, intake_id := 0, sha256 := [1], doc_kind := DocKind.t4,
         extracted_data := some [("employer_name", some "ACME")] },
       { id := 2, intake_id := 0, sha256 := [2], doc_kind := DocKind.t4,
         extracted_data := some [] }],
    checklist_items :=
      [{ id := 10, intake_id := 0, doc_kind := DocKind.t4, status := ChecklistStatus.missing,
         quantity_expected := 1, quantity_received := 0 }] }

/-- The triggering document of the C1 fixture. -/
def cexDoc1 : Document :=
  { id := 1, intake_id := 0, sha256 := [1], doc_kind := DocKind.t4,
    extracted_data := some [("employer_name", some "ACME")] }

/-- C1 counterexample: in `cexDB1` only one T4 document has a non-null,
non-empty extracted map (N = 1), yet after the reconciliation triggered by
that document the checklist item's `quantity_received` is 2: the recount
predicate is `IS NOT NULL` and also counts the document whose extracted map
is present but empty. -/
theorem C1_counterexample :
    (findChecklistItem (update_checklist_for_document cexDB1 cexDoc1) 0 DocKind.t4).map
        ChecklistItem.quantity_received = some 2
    ∧ countNonEmptyExtracted cexDB1 0 DocKind.t4 = 1
    ∧ (2 : Nat) ≠ 1 := by
  refine ⟨rfl, rfl, by decide⟩

/-- C1 amended: after a reconciliation triggered by a document of kind K in
intake I that finds a checklist item, the item's `quantity_received` equals
the count of documents of kind K in I whose extracted map is non-null (empty
maps included); the documents table is untouched, so the recount depends only
on the current documents and not on the order of triggering calls. -/
theorem C1_recount_nonnull (db : DB) (d : Document) (item : ChecklistItem)
    (hk : ¬d.doc_kind = DocKind.unknown) (hx : jsonTruthy d.extracted_data = true)
    (hfind : findChecklistItem db d.intake_id d.doc_kind = some item) :
    ∃ item2 : ChecklistItem,
      findChecklistItem (update_checklist_for_document db d) d.intake_id d.doc_kind = some item2
      ∧ item2.quantity_received = extractedCount db d.intake_id d.doc_kind
      ∧ (update_checklist_for_document db d).documents = db.documents :=
  ⟨upd db d item, update_checklist_found db d item (guard_passes d hk hx) hfind,
    upd_quantity_received db d item, update_checklist_documents db d⟩

/-- Witness fixture: intake 0 with a missing T4 item expecting one document,
and one extracted T4 document. -/
def wDB1 : DB :=
  { intakes := [intake0],
    documents :=
      [{ id := 1, intake_id := 0, sha256 := [1], doc_kind := DocKind.t4,
         extracted_data := some [("employer_name", some "ACME")] }],
    checklist_items :=
      [{ id := 10, intake_id := 0, doc_kind := DocKind.t4, status := ChecklistStatus.missing,
         quantity_expected := 1, quantity_received := 0 }] }

/-- The triggering document of the witness fixture. -/
def wDoc1 : Document :=
  { id := 1, intake_id := 0, sha256 := [1], doc_kind := DocKind.t4,
    extracted_data := some [("employer_name", some "ACME")] }

/-- The checklist item of the witness fixture. -/
def wItem1 : ChecklistItem :=
  { id := 10, intake_id := 0, doc_kind := DocKind.t4, status := ChecklistStatus.missing,
    quantity_expected := 1, quantity_received := 0 }

/-- Witness for C1 amended at the concrete fixture. -/
theorem C1_recount_nonnull_witness :
    ∃ item2 : ChecklistItem,
      findChecklistItem (update_checklist_for_document wDB1 wDoc1) wDoc1.intake_id wDoc1.doc_kind
        = some item2
      ∧ item2.quantity_received = extractedCount wDB1 wDoc1.intake_id wDoc1.doc_kind
      ∧ (update_checklist_for_document wDB1 wDoc1).documents = wDB1.documents :=
  C1_recount_nonnull wDB1 wDoc1 wItem1 (by decide) rfl rfl

/-- Fixture for C2: a checklist item already `received` with expected 2 and
received 2, while only one receipt document is currently extracted. -/
def cexDB2 : DB :=
  { intakes := [intake0],
    documents :=
      [{ id := 2, intake_id := 0, sha256 := [2], doc_kind := DocKind.receipt,
         extracted_data := some [("total_amount", some "5")] }],
    checklist_items :=
      [{ id := 11, intake_id := 0, doc_kind := DocKind.receipt,
         status := ChecklistStatus.received, quantity_expected := 2,
         quantity_received := 2 }] }

/-- The triggering document of the C2 fixture. -/
def cexDoc2 : Document :=
  { id := 2, intake_id := 0, sha256 := [2], doc_kind := DocKind.receipt,
    extracted_data := some [("total_amount", some "5")] }

/-- C2 counterexample: reconciliation recomputes the count to 1, which is
below the expected quantity 2, yet the item's status stays `received` — the
source has no else-branch writing `missing`, so the claimed transition back to
`missing` does not happen. -/
theorem C2_counterexample :
    (findChecklistItem (update_checklist_for_document cexDB2 cexDoc2) 0 DocKind.receipt).map
        ChecklistItem.quantity_received = some 1
    ∧ (findChecklistItem (update_checklist_for_document cexDB2 cexDoc2) 0 DocKind.receipt).map
        ChecklistItem.quantity_expected = some 2
    ∧ (findChecklistItem (update_checklist_for_document cexDB2 cexDoc2) 0 DocKind.receipt).map
        ChecklistItem.status = some ChecklistStatus.received
    ∧ ChecklistStatus.received ≠ ChecklistStatus.missing := by
  refine ⟨rfl, rfl, rfl, by decide⟩

/-- C2 amended: after a reconciliation that locates a checklist item, the
item's status is `received` if the recomputed count is at least the expected
quantity, and otherwise is left exactly as it was before the call (never reset
to `missing`). -/
theorem C2_status_update (db : DB) (d : Document) (item : ChecklistItem)
    (hk : ¬d.doc_kind = DocKind.unknown) (hx : jsonTruthy d.extracted_data = true)
    (hfind : findChecklistItem db d.intake_id d.doc_kind = some item) :
    ∃ item2 : ChecklistItem,
      findChecklistItem (update_checklist_for_document db d) d.intake_id d.doc_kind = some item2
      ∧ item2.status =
          (if extractedCount db d.intake_id d.doc_kind ≥ item.quantity_expected
           then ChecklistStatus.received else item.status) :=
  ⟨upd db d item, update_checklist_found db d item (guard_passes d hk hx) hfind,
    upd_status db d item⟩

/-- Witness for C2 amended at the concrete fixture. -/
theorem C2_status_update_witness :
    ∃ item2 : ChecklistItem,
      findChecklistItem (update_checklist_for_document wDB1 wDoc1) wDoc1.intake_id wDoc1.doc_kind
        = some item2
      ∧ item2.status =
          (if extractedCount wDB1 wDoc1.intake_id wDoc1.doc_kind ≥ wItem1.quantity_expected
           then ChecklistStatus.received else wItem1.status) :=
  C2_status_update wDB1 wDoc1 wItem1 (by decide) rfl rfl

/-- Fixture for C3: an open intake with no checklist items at all. -/
def cexDB3 : DB :=
  { intakes := [intake0], documents := [], checklist_items := [] }

/-- C3 counterexample: on an intake with zero checklist items, the status
re-evaluation function sets the status to `done` (it only checks that no item
has status `missing`, which is vacuously true), contradicting the claim that
such an intake always stays `open`. -/
theorem C3_counterexample :
    cexDB3.checklist_items = []
    ∧ ((check_and_update_intake_status cexDB3 0).intakes.find?
        (fun i => decide (i.id = 0))).map Intake.status = some IntakeStatus.done
    ∧ IntakeStatus.done ≠ IntakeStatus.open_ := by
  refine ⟨rfl, rfl, by decide⟩

/-- C3 amended: for an intake with zero checklist items, the model property
`Intake.is_complete` is false, as the claim states; the service function
`check_and_update_intake_status`, however, does not consult it and marks such
an intake `done`, because it only requires that no checklist item of the
intake has status `missing`. -/
theorem C3_empty_checklist (db : DB) (intake : Intake)
    (hmem : db.intakes.find? (fun i => decide (i.id = intake.id)) = some intake)
    (hempty : db.checklist_items.filter (fun it => decide (it.intake_id = intake.id)) = []) :
    Intake.is_complete db intake = false
    ∧ ((check_and_update_intake_status db intake.id).intakes.find?
        (fun i => decide (i.id = intake.id))).map Intake.status = some IntakeStatus.done := by
  constructor
  · simp [Intake.is_complete, hempty]
  · have hmiss : (db.checklist_items.filter (fun it =>
        decide (it.intake_id = intake.id ∧ it.status = ChecklistStatus.missing))).length = 0 := by
      have h := filter_eq_nil_of_imp (fun it => decide (it.intake_id = intake.id))
        (fun it => decide (it.intake_id = intake.id ∧ it.status = ChecklistStatus.missing))
        db.checklist_items hempty (by
          intro x hx
          rw [decide_eq_true_eq] at hx
          rw [decide_eq_true_eq]
          exact hx.1)
      rw [h]
      rfl
    rw [check_and_update_eq, hmem, if_pos hmiss]
    have hf2 := find?_map_update (fun i : Intake => i.id = intake.id)
      (fun i => { i with status := IntakeStatus.done }) (fun x => Iff.rfl)
      db.intakes intake hmem
    show ((db.intakes.map (fun i =>
        if i.id = intake.id then { i with status := IntakeStatus.done } else i)).find?
        (fun i => decide (i.id = intake.id))).map Intake.status = some IntakeStatus.done
    rw [hf2]
    rfl

/-- Witness for C3 amended at the concrete zero-item fixture. -/
theorem C3_empty_checklist_witness :
    Intake.is_complete cexDB3 intake0 = false
    ∧ ((check_and_update_intake_status cexDB3 intake0.id).intakes.find?
        (fun i => decide (i.id = intake0.id))).map Intake.status = some IntakeStatus.done :=
  C3_empty_checklist cexDB3 intake0 rfl rfl

/-- C7 counterexample: the state committed by the first transaction of
reconciliation (line 43) can be durable while the cascading intake-status
commit (line 74) is not: at this fixture the first commit already has the
checklist item `received` while the intake is still `open`, whereas the full
call ends with the intake `done`.  A failure between the two commits therefore
leaves exactly the partially-applied state the claim rules out. -/
theorem C7_counterexample :
    (update_checklist_commit1 wDB1 wDoc1).checklist_items.map ChecklistItem.status
        = [ChecklistStatus.received]
    ∧ (update_checklist_commit1 wDB1 wDoc1).intakes.map Intake.status = [IntakeStatus.open_]
    ∧ (update_checklist_for_document wDB1 wDoc1).intakes.map Intake.status
        = [IntakeStatus.done] := by
  refine ⟨rfl, rfl, rfl⟩

/-- C7 amended: reconciliation is two separate transactions, not one: the full
call equals the cascading intake re-evaluation applied to the state of the
first commit (which persists the item recount/status), and that first commit
leaves the intakes table untouched — so a failure between the two commits
leaves the item update applied without the intake cascade, while each
individual commit is atomic (the durable state is always the initial state,
the first-commit state, or the full state). -/
theorem C7_two_commits (db : DB) (d : Document) (item : ChecklistItem)
    (hk : ¬d.doc_kind = DocKind.unknown) (hx : jsonTruthy d.extracted_data = true)
    (hfind : findChecklistItem db d.intake_id d.doc_kind = some item) :
    update_checklist_for_document db d
      = check_and_update_intake_status (update_checklist_commit1 db d) d.intake_id
    ∧ (update_checklist_commit1 db d).intakes = db.intakes := by
  have hguard := guard_passes d hk hx
  refine ⟨?_, update_checklist_commit1_intakes db d⟩
  rw [update_checklist_eq, update_checklist_commit1_eq, if_neg hguard, if_neg hguard, hfind]

/-- Witness for C7 amended at the concrete fixture. -/
theorem C7_two_commits_witness :
    update_checklist_for_document wDB1 wDoc1
      = check_and_update_intake_status (update_checklist_commit1 wDB1 wDoc1) wDoc1.intake_id
    ∧ (update_checklist_commit1 wDB1 wDoc1).intakes = wDB1.intakes :=
  C7_two_commits wDB1 wDoc1 wItem1 (by decide) rfl rfl

/-- C8: the checklist read view's overall progress is 100 * total_received /
total_expected (0 when total_expected is 0), and each item's completion
percentage is 100 * received / expected (0 when expected is 0) — exact
rational arithmetic. -/
theorem C8_progress_formulas (items : List ChecklistItem) (item : ChecklistItem) :
    overall_progress items =
      (if total_expected items = 0 then 0
       else 100 * (total_received items : ℚ) / (total_expected items : ℚ))
    ∧ progress_percentage item =
      (if item.quantity_expected = 0 then 0
       else 100 * (item.quantity_received : ℚ) / (item.quantity_expected : ℚ)) := by
  constructor
  · rw [overall_progress]
    by_cases h : total_expected items = 0
    · rw [if_pos h, if_neg (by omega)]
    · rw [if_neg h, if_pos (Nat.pos_of_ne_zero h)]
      ring
  · rw [progress_percentage]
    by_cases h : item.quantity_expected = 0
    · rw [if_pos h, if_pos h]
    · rw [if_neg h, if_neg h]
      ring

/-- Zeta-reduced unfolding of `upload_document`. -/
theorem upload_document_eq (hash : List Nat → List Nat) (db : DB) (intake_id : Nat)
    (content : List Nat) (newId : Nat) :
    upload_document hash db intake_id content newId =
      (match db.intakes.find? (fun i => decide (i.id = intake_id)) with
       | none => (UploadOutcome.notFound, db)
       | some _ =>
         match db.documents.find? (fun d =>
             decide (d.intake_id = intake_id ∧ d.sha256 = hash content)) with
         | some _ => (UploadOutcome.conflict, db)
         | none =>
           (UploadOutcome.created
             { id := newId, intake_id := intake_id, sha256 := hash content,
               doc_kind := DocKind.unknown, extracted_data := none },
            { db with documents := db.documents ++
               [{ id := newId, intake_id := intake_id, sha256 := hash content,
                  doc_kind := DocKind.unknown, extracted_data := none }] })) := rfl

/-- C9: uploading bytes whose fingerprint equals that of a document already in
intake A is rejected as Conflict and leaves the state unchanged, while
uploading the same bytes to intake B, which has no document with that
fingerprint, succeeds and appends exactly one new unclassified document. -/
theorem C9_duplicate_rejected (hash : List Nat → List Nat) (db : DB) (A B : Nat)
    (content : List Nat) (nA nB : Nat)
    (hA : (db.intakes.find? (fun i => decide (i.id = A))).isSome = true)
    (hB : (db.intakes.find? (fun i => decide (i.id = B))).isSome = true)
    (d0 : Document) (hd0 : d0 ∈ db.documents) (hd0i : d0.intake_id = A)
    (hd0h : d0.sha256 = hash content)
    (hBnew : ∀ d ∈ db.documents, d.intake_id = B → d.sha256 ≠ hash content) :
    upload_document hash db A content nA = (UploadOutcome.conflict, db)
    ∧ upload_document hash db B content nB =
        (UploadOutcome.created
          { id := nB, intake_id := B, sha256 := hash content,
            doc_kind := DocKind.unknown, extracted_data := none },
         { db with documents := db.documents ++
            [{ id := nB, intake_id := B, sha256 := hash content,
               doc_kind := DocKind.unknown, extracted_data := none }] }) := by
  obtain ⟨iA, hiA⟩ := Option.isSome_iff_exists.mp hA
  obtain ⟨iB, hiB⟩ := Option.isSome_iff_exists.mp hB
  constructor
  · have hsome : (db.documents.find? (fun dd =>
        decide (dd.intake_id = A ∧ dd.sha256 = hash content))).isSome = true := by
      rw [List.find?_isSome]
      exact ⟨d0, hd0, by rw [decide_eq_true_eq]; exact ⟨hd0i, hd0h⟩⟩
    obtain ⟨d1, hd1⟩ := Option.isSome_iff_exists.mp hsome
    rw [upload_document_eq, hiA, hd1]
  · have hnone : db.documents.find? (fun dd =>
        decide (dd.intake_id = B ∧ dd.sha256 = hash content)) = none := by
      rw [List.find?_eq_none]
      intro x hx
      simp only [decide_eq_true_eq, not_and]
      intro h1 h2
      exact hBnew x hx h1 h2
    rw [upload_document_eq, hiB, hnone]

/-- Fixture for the C9 witness: two intakes; intake 0 already holds a document
with fingerprint [7, 7]. -/
def wDB9 : DB :=
  { intakes := [intake0,
      { id := 1, client_id := 0, fiscal_year := 2026, status := IntakeStatus.open_ }],
    documents := [{ id := 1, intake_id := 0, sha256 := [7, 7], doc_kind := DocKind.unknown,
                    extracted_data := none }],
    checklist_items := [] }

/-- Witness for C9 with the identity hash at concrete bytes [7, 7]. -/
theorem C9_duplicate_rejected_witness :
    upload_document (fun b => b) wDB9 0 [7, 7] 5 = (UploadOutcome.conflict, wDB9)
    ∧ upload_document (fun b => b) wDB9 1 [7, 7] 6 =
        (UploadOutcome.created
          { id := 6, intake_id := 1, sha256 := (fun b : List Nat => b) [7, 7],
            doc_kind := DocKind.unknown, extracted_data := none },
         { wDB9 with documents := wDB9.documents ++
            [{ id := 6, intake_id := 1, sha256 := (fun b : List Nat => b) [7, 7],
               doc_kind := DocKind.unknown, extracted_data := none }] }) :=
  C9_duplicate_rejected (fun b => b) wDB9 0 1 [7, 7] 5 6 rfl rfl
    { id := 1, intake_id := 0, sha256 := [7, 7], doc_kind := DocKind.unknown,
      extracted_data := none }
    (by decide) rfl rfl (by decide)

/-- Setting the status of the matching intake to `done` moves the first find-hit
to its updated copy (specialisation of `find?_map_update` in the syntactic
shape used by `check_and_update_intake_status`). -/
theorem find?_setDone (intake_id : Nat) (l : List Intake) (a : Intake)
    (h : l.find? (fun i => decide (i.id = intake_id)) = some a) :
    (l.map (fun i =>
        if i.id = intake_id then { i with status := IntakeStatus.done } else i)).find?
      (fun i => decide (i.id = intake_id)) = some { a with status := IntakeStatus.done } := by
  simpa using find?_map_update (fun i : Intake => i.id = intake_id)
    (fun i => { i with status := IntakeStatus.done }) (fun x => Iff.rfl) l a h

/-- Marking the matching intake `done` twice is the same as once. -/
theorem map_setDone_idem (intake_id : Nat) (l : List Intake) :
    (l.map (fun i =>
        if i.id = intake_id then { i with status := IntakeStatus.done } else i)).map
      (fun i => if i.id = intake_id then { i with status := IntakeStatus.done } else i)
    = l.map (fun i =>
        if i.id = intake_id then { i with status := IntakeStatus.done } else i) := by
  rw [List.map_map]
  congr 1
  funext x
  by_cases h : x.id = intake_id <;> simp [h]

/-- `check_and_update_intake_status` is idempotent: re-running the derivation
with no state change is a no-op write. -/
theorem check_and_update_idem (db : DB) (intake_id : Nat) :
    check_and_update_intake_status (check_and_update_intake_status db intake_id) intake_id
      = check_and_update_intake_status db intake_id := by
  rcases hfind : db.intakes.find? (fun i => decide (i.id = intake_id)) with _ | a
  · have h1 : check_and_update_intake_status db intake_id = db := by
      rw [check_and_update_eq, hfind]
    rw [h1, h1]
  · by_cases hm : (db.checklist_items.filter (fun it =>
        decide (it.intake_id = intake_id ∧ it.status = ChecklistStatus.missing))).length = 0
    · have h1 : check_and_update_intake_status db intake_id =
          { db with intakes := db.intakes.map (fun i =>
              if i.id = intake_id then { i with status := IntakeStatus.done } else i) } := by
        rw [check_and_update_eq, hfind, if_pos hm]
      rw [h1, check_and_update_eq]
      have hfind2 : ({ db with intakes := db.intakes.map (fun i =>
          if i.id = intake_id then { i with status := IntakeStatus.done } else i) } : DB).intakes.find?
            (fun i => decide (i.id = intake_id))
          = some { a with status := IntakeStatus.done } :=
        find?_setDone intake_id db.intakes a hfind
      rw [hfind2]
      have hitems : ({ db with intakes := db.intakes.map (fun i =>
          if i.id = intake_id then { i with status := IntakeStatus.done } else i) } : DB).checklist_items
          = db.checklist_items := rfl
      rw [hitems, if_pos hm]
      have hintakes : ({ db with intakes := db.intakes.map (fun i =>
          if i.id = intake_id then { i with status := IntakeStatus.done } else i) } : DB).intakes
          = db.intakes.map (fun i =>
              if i.id = intake_id then { i with status := IntakeStatus.done } else i) := rfl
      rw [hintakes, map_setDone_idem]
    · have h1 : check_and_update_intake_status db intake_id = db := by
        rw [check_and_update_eq, hfind, if_neg hm]
      rw [h1, h1]

/-- Re-applying the item update on a state with the same recount changes
nothing: the count is already stored and the status rule is stable. -/
theorem upd_stable (db db2 : DB) (d : Document) (item : ChecklistItem)
    (hcnt : extractedCount db2 d.intake_id d.doc_kind
      = extractedCount db d.intake_id d.doc_kind) :
    upd db2 d (upd db d item) = upd db d item := by
  unfold upd
  rw [hcnt]
  by_cases hge : extractedCount db d.intake_id d.doc_kind ≥ item.quantity_expected <;>
    simp [hge]

/-- Replacing the id-matching items by a fixed item carrying that id is
idempotent (syntactic shape used by `update_checklist_for_document`). -/
theorem map_replace_idem_item (r : ChecklistItem) (n : Nat) (hr : r.id = n)
    (l : List ChecklistItem) :
    (l.map (fun it => if it.id = n then r else it)).map (fun it => if it.id = n then r else it)
      = l.map (fun it => if it.id = n then r else it) := by
  rw [List.map_map]
  congr 1
  funext x
  by_cases h : x.id = n <;> simp [h, hr]

/-- C5: reconciliation is idempotent — calling it twice in a row for the same
document, with no other state change in between, leaves the whole database
(checklist items and intake status included) exactly as one call does. -/
theorem C5_reconciliation_idempotent (db : DB) (d : Document) :
    update_checklist_for_document (update_checklist_for_document db d) d
      = update_checklist_for_document db d := by
  by_cases hguard : d.doc_kind = DocKind.unknown ∨ jsonTruthy d.extracted_data = false
  · have h0 : update_checklist_for_document db d = db := by
      rw [update_checklist_eq, if_pos hguard]
    rw [h0]
    exact h0
  · rcases hfind : findChecklistItem db d.intake_id d.doc_kind with _ | item
    · have h0 : update_checklist_for_document db d = db := by
        rw [update_checklist_eq, if_neg hguard, hfind]
      rw [h0]
      exact h0
    · have hr1 : update_checklist_for_document db d = check_and_update_intake_status
          { db with checklist_items := db.checklist_items.map (fun it =>
              if it.id = item.id then upd db d item else it) } d.intake_id := by
        rw [update_checklist_eq, if_neg hguard, hfind]
      have hitems1 : (update_checklist_for_document db d).checklist_items
          = db.checklist_items.map (fun it => if it.id = item.id then upd db d item else it) := by
        rw [hr1, check_and_update_checklist_items]
      have hfind2 : findChecklistItem (update_checklist_for_document db d)
          d.intake_id d.doc_kind = some (upd db d item) :=
        update_checklist_found db d item hguard hfind
      have hcnt : extractedCount (update_checklist_for_document db d) d.intake_id d.doc_kind
          = extractedCount db d.intake_id d.doc_kind := by
        unfold extractedCount
        rw [update_checklist_documents]
      have hr2 : update_checklist_for_document (update_checklist_for_document db d) d
          = check_and_update_intake_status
              { update_checklist_for_document db d with checklist_items :=
                  (update_checklist_for_document db d).checklist_items.map (fun it =>
                    if it.id = (upd db d item).id
                    then upd (update_checklist_for_document db d) d (upd db d item) else it) }
              d.intake_id := by
        rw [update_checklist_eq, if_neg hguard, hfind2]
      rw [hr2]
      rw [upd_stable db (update_checklist_for_document db d) d item hcnt]
      rw [upd_id]
      rw [hitems1]
      rw [map_replace_idem_item (upd db d item) item.id (upd_id db d item) db.checklist_items]
      rw [← hitems1]
      have heta : ({ update_checklist_for_document db d with
          checklist_items := (update_checklist_for_document db d).checklist_items } : DB)
          = update_checklist_for_document db d := rfl
      rw [heta, hr1, check_and_update_idem]

/-- Status re-evaluation can only write `done`: it preserves `intakeDone`. -/
theorem intakeDone_check_and_update (db : DB) (tid iid : Nat)
    (h : intakeDone db iid = true) :
    intakeDone (check_and_update_intake_status db tid) iid = true := by
  have h' : db.intakes.all
      (fun i => decide (i.id = iid → i.status = IntakeStatus.done)) = true := h
  rw [check_and_update_eq]
  split
  · exact h
  · split
    · show (db.intakes.map (fun i =>
          if i.id = tid then { i with status := IntakeStatus.done } else i)).all
          (fun i => decide (i.id = iid → i.status = IntakeStatus.done)) = true
      rw [List.all_eq_true]
      intro x hx
      rw [List.mem_map] at hx
      obtain ⟨y, hy, hxy⟩ := hx
      subst hxy
      by_cases hid : y.id = tid
      · rw [if_pos hid, decide_eq_true_eq]
        intro _
        rfl
      · rw [if_neg hid]
        exact List.all_eq_true.mp h' y hy
    · exact h

/-- Reconciliation preserves `intakeDone`. -/
theorem intakeDone_update_checklist (db : DB) (d : Document) (iid : Nat)
    (h : intakeDone db iid = true) :
    intakeDone (update_checklist_for_document db d) iid = true := by
  rw [update_checklist_eq]
  split
  · exact h
  · split
    · exact h
    · exact intakeDone_check_and_update _ _ _ h

/-- Upload preserves `intakeDone`. -/
theorem intakeDone_upload (hash : List Nat → List Nat) (db : DB) (iid A : Nat)
    (content : List Nat) (newId : Nat) (h : intakeDone db iid = true) :
    intakeDone (upload_document hash db A content newId).2 iid = true := by
  rw [upload_document_eq]
  split
  · exact h
  · split
    · exact h
    · exact h

/-- Classification preserves `intakeDone`. -/
theorem intakeDone_classify (db : DB) (did : Nat) (kind : DocKind) (iid : Nat)
    (h : intakeDone db iid = true) :
    intakeDone (classify_document db did kind) iid = true := by
  rw [classify_document]
  split
  · exact h
  · exact h

/-- Extraction (with its reconciliation cascade) preserves `intakeDone`. -/
theorem intakeDone_extract (db : DB) (did : Nat) (data : FieldMap) (iid : Nat)
    (h : intakeDone db iid = true) :
    intakeDone (extract_document db did data) iid = true := by
  rw [extract_document]
  split
  · exact h
  · split
    · exact h
    · exact intakeDone_update_checklist _ _ _ h

/-- Every single core operation preserves `intakeDone`. -/
theorem intakeDone_applyOp (hash : List Nat → List Nat) (db : DB) (op : Op) (iid : Nat)
    (h : intakeDone db iid = true) :
    intakeDone (applyOp hash db op) iid = true := by
  cases op with
  | upload A content newId => exact intakeDone_upload hash db iid A content newId h
  | classifyDoc did kind => exact intakeDone_classify db did kind iid h
  | extractDoc did data => exact intakeDone_extract db did data iid h
  | reconcile did =>
    show intakeDone (match db.documents.find? (fun dd => decide (dd.id = did)) with
      | none => db
      | some document => update_checklist_for_document db document) iid = true
    split
    · exact h
    · exact intakeDone_update_checklist _ _ _ h
  | reeval tid => exact intakeDone_check_and_update db tid iid h

/-- C10: once an intake's status is `done`, no sequence of core operations
(upload, classification, extraction, reconciliation, status re-evaluation)
ever sets it back to `open` — the re-evaluation step only ever writes `done`. -/
theorem C10_done_is_permanent (hash : List Nat → List Nat) (db : DB) (iid : Nat)
    (ops : List Op) (h : intakeDone db iid = true) :
    intakeDone (applyOps hash db ops) iid = true := by
  induction ops generalizing db with
  | nil => exact h
  | cons op ops ih => exact ih _ (intakeDone_applyOp hash db op iid h)

/-- Fixture for the C10 witness: intake 0 is already `done`. -/
def wDB10 : DB :=
  { intakes := [{ id := 0, client_id := 0, fiscal_year := 2025, status := IntakeStatus.done }],
    documents := [{ id := 1, intake_id := 0, sha256 := [1], doc_kind := DocKind.t4,
                    extracted_data := none }],
    checklist_items := [{ id := 10, intake_id := 0, doc_kind := DocKind.t4,
                          status := ChecklistStatus.received, quantity_expected := 1,
                          quantity_received := 1 }] }

/-- Witness for C10 at a concrete fixture and a concrete operation sequence
exercising every kind of core operation. -/
theorem C10_done_is_permanent_witness :
    intakeDone (applyOps (fun b => b) wDB10
      [Op.classifyDoc 1 DocKind.t4, Op.extractDoc 1 [("a", some "b")],
       Op.reconcile 1, Op.upload 0 [9] 2, Op.reeval 0]) 0 = true :=
  C10_done_is_permanent (fun b => b) wDB10 0
    [Op.classifyDoc 1 DocKind.t4, Op.extractDoc 1 [("a", some "b")],
     Op.reconcile 1, Op.upload 0 [9] 2, Op.reeval 0] (by decide)
